import Mathlib

/-!
Verification development for the `btz1n/gerenciador` repository.

The repository contains two FastAPI applications sharing one domain:
`imperio_saas/` (multi-tenant SaaS: stores with plans, feature flags,
sequence-numbered orders/sales/bar tabs) and `loja_mvp.py` (the earlier
single-file MVP).  This file shallowly embeds the database state and the
route handlers that the verified claims are about.  SQLAlchemy sessions
are modelled by explicit state passing: a handler takes the durable
database state and returns the response outcome together with the new
durable state; an uncommitted session that is discarded (early `return`
before `db.commit()`, or a raised exception) leaves the durable state
equal to the input state, mirroring the rollback performed when the
session is closed without commit.

Monetary values (`price`, `total`, `line_total`, Python `float`) are
modelled as `Int`: no verified claim depends on floating-point rounding,
only on values being copied/accumulated verbatim.  Python `int` columns
(`stock`, `qty`) are `Int`; primary keys and the per-store counters are
`Nat` (they are seeded at 1 by `migrations.py` and only incremented).

`src/imperio_saas/models.py` in the snapshot lacks the `BarTab` /
`BarTabItem` classes and the `number`, `converted_sale_id`,
`next_order_seq`, `next_sale_seq`, `next_tab_seq` columns that
`routes.py` and `migrations.py` use; those fields are modelled from the
spec's data model (section 3), which documents them, and from the
migration defaults (counters seeded at 1, nullable `number` and
`converted_sale_id`).
-/

deriving instance DecidableEq for Except

/-- Update the first element of a list satisfying `p` by `f`, leaving the
rest unchanged.  This models mutating the single ORM object returned by
`query(...).filter(...).first()`. -/
def updateFirst (p : α → Bool) (f : α → α) : List α → List α
  | [] => []
  | x :: xs => if p x then f x :: xs else x :: updateFirst p f xs

/-- Python `str.strip()` over the character list (the builtin
`String.trim` is extensionally the same but is not kernel-reducible). -/
def strTrim (s : String) : String :=
  ⟨((s.data.dropWhile Char.isWhitespace).reverse.dropWhile
      Char.isWhitespace).reverse⟩

/-- Python `str.lower()` over the character list (the handlers only
apply it to ASCII status strings and product names). -/
def strLower (s : String) : String :=
  ⟨s.data.map Char.toLower⟩

/-- Digit-string parser used by `strToInt?`. -/
def natOfDigits (cs : List Char) : Option Nat :=
  if cs.isEmpty then none
  else
    cs.foldl
      (fun acc c =>
        match acc with
        | none => none
        | some n => if c.isDigit then some (n * 10 + (c.toNat - 48)) else none)
      (some 0)

/-- Python `int(str)` on an already-stripped string, as used on the
`product_ids` form values: an optional sign followed by digits, `None`
(handled as a skip by the callers) otherwise. -/
def strToInt? (s : String) : Option Int :=
  match s.data with
  | '-' :: rest => (natOfDigits rest).map (fun n => -(n : Int))
  | '+' :: rest => (natOfDigits rest).map (fun n => (n : Int))
  | cs => (natOfDigits cs).map (fun n => (n : Int))

namespace Imperio

/-- Python `datetime`: a wall-clock value plus an optional UTC offset
(`tzinfo is None` means offset-naive).  `replace(tzinfo=timezone.utc)`
keeps `wall` and sets the offset to `0`; `astimezone(timezone.utc)`
re-expresses the same instant (`wall - off`) with offset `0`. -/
structure PyDt where
  wall : Int
  tz : Option Int
deriving DecidableEq

/-- `deps.py` `is_subscription_ok` normalisation of `paid_until` to an
offset-aware UTC instant: a naive datetime is reinterpreted as UTC
(`replace(tzinfo=timezone.utc)`), an aware one is converted
(`astimezone(timezone.utc)`). -/
def toUtc (d : PyDt) : Int :=
  match d.tz with
  | none => d.wall
  | some off => d.wall - off

/-- `stores` row (`models.py` `Store` plus the counter columns added by
`migrations.py` `ensure_schema`, documented in the spec's data model). -/
structure Store where
  id : Nat
  name : String
  segment : String
  plan : String
  subscription_status : String
  paid_until : Option PyDt
  next_order_seq : Option Nat
  next_sale_seq : Option Nat
  next_tab_seq : Option Nat
deriving DecidableEq

/-- `store_features` row (`models.py` `StoreFeature`). -/
structure FeatureRow where
  store_id : Nat
  key : String
  enabled : Int
deriving DecidableEq

/-- `products` row (`models.py` `Product`). -/
structure Product where
  id : Nat
  store_id : Nat
  name : String
  price : Int
  stock : Int
deriving DecidableEq

/-- `sales` row (`models.py` `Sale` plus the `number` column from
`migrations.py`). -/
structure Sale where
  id : Nat
  store_id : Nat
  customer_name : Option String
  total : Int
  status : String
  number : Option String
deriving DecidableEq

/-- `sale_items` row (`models.py` `SaleItem`). -/
structure SaleItem where
  sale_id : Nat
  product_name : String
  qty : Int
  price : Int
  line_total : Int
deriving DecidableEq

/-- `orders` row (`models.py` `Order` plus `number` and
`converted_sale_id` from `migrations.py`). -/
structure Order where
  id : Nat
  store_id : Nat
  customer_name : Option String
  status : String
  total : Int
  number : Option String
  converted_sale_id : Option Nat
deriving DecidableEq

/-- `order_items` row (`models.py` `OrderItem`). -/
structure OrderItem where
  order_id : Nat
  product_name : String
  qty : Int
  price : Int
  line_total : Int
deriving DecidableEq

/-- Bar tab row.  Modelled from the spec: `BarTab` is imported from
`.models` by `routes.py` but missing from the snapshot's `models.py`;
the spec's data model gives it id, tenant, table_name,
status ∈ \x7baberta, fechada\x7d, running total, optional number,
optional `converted_sale_id` and `closed_at`. -/
structure BarTab where
  id : Nat
  store_id : Nat
  table_name : String
  status : String
  total : Int
  number : Option String
  converted_sale_id : Option Nat
  closed_at : Option Int
deriving DecidableEq

/-- Bar tab line-item row.  Modelled from the spec: `BarTabItem` is
imported from `.models` by `routes.py` but missing from the snapshot's
`models.py`; the spec describes tab items as the same immutable snapshot
shape as `SaleItem`/`OrderItem`. -/
structure BarTabItem where
  tab_id : Nat
  product_name : String
  qty : Int
  price : Int
  line_total : Int
deriving DecidableEq

/-- The durable database state of the SaaS application (the tables the
verified claims touch).  `nextSaleId`/`nextOrderId`/`nextTabId` model
the autoincrement primary-key generators. -/
structure Db where
  stores : List Store
  features : List FeatureRow
  products : List Product
  sales : List Sale
  saleItems : List SaleItem
  orders : List Order
  orderItems : List OrderItem
  tabs : List BarTab
  tabItems : List BarTabItem
  nextSaleId : Nat
  nextOrderId : Nat
  nextTabId : Nat
deriving DecidableEq

/-- `db.query(Store).filter(Store.id == store_id)...first()`. -/
def findStore (db : Db) (sid : Nat) : Option Store :=
  db.stores.find? (fun s => s.id == sid)

/-- Python truthiness-guarded read `int(store.next_order_seq or 1)`:
`None` and `0` are falsy and read as `1`. -/
def orOne : Option Nat → Nat
  | none => 1
  | some n => if n = 0 then 1 else n

/-- Zero-pad a counter value to six digits, as Python `f"{seq:06d}"`
does for non-negative values (wider values are not truncated). -/
def pad6 (n : Nat) : String :=
  let s := toString n
  String.mk (List.replicate (6 - s.length) '0') ++ s

/-- The tenant's current counter for a numbering kind, following the
dispatch in `_alloc_number` (`"P"` → order counter, `"V"` → sale
counter, anything else → tab counter). -/
def counterOf (s : Store) (kind : String) : Option Nat :=
  if kind = "P" then s.next_order_seq
  else if kind = "V" then s.next_sale_seq
  else s.next_tab_seq

inductive AllocErr where
  | invalidTenant
deriving DecidableEq

/-- The body of `routes.py` `_alloc_number` once the store row has been
fetched: read the counter for `kind` (falsy values read as 1), format
`"{prefix}-{seq:06d}"`, and write back `seq + 1`. -/
def allocStep (store : Store) (kind : String) : String × Store :=
  if kind = "P" then
    let seq := orOne store.next_order_seq
    ("P-" ++ pad6 seq, { store with next_order_seq := some (seq + 1) })
  else if kind = "V" then
    let seq := orOne store.next_sale_seq
    ("V-" ++ pad6 seq, { store with next_sale_seq := some (seq + 1) })
  else
    let seq := orOne store.next_tab_seq
    ("C-" ++ pad6 seq, { store with next_tab_seq := some (seq + 1) })

/-- `routes.py` `_alloc_number`: fetch the store row (`with_for_update`
serialisation is not modelled — claims about it are per-tenant
sequential), raise HTTP 400 "Loja inválida." when it does not exist,
otherwise allocate from the counter for `kind` and write the bumped
counter back to the session. -/
def allocNumber (db : Db) (sid : Nat) (kind : String) :
    Except AllocErr (String × Db) :=
  match findStore db sid with
  | none => .error .invalidTenant
  | some s =>
    let r := allocStep s kind
    .ok (r.1,
      { db with stores := updateFirst (fun t => t.id == sid) (fun _ => r.2) db.stores })

/-- The session after `_alloc_number` wrote the bumped store row back:
the store list with the fetched row replaced by `s'`. -/
def bumpStore (db : Db) (sid : Nat) (s' : Store) : Db :=
  { db with stores := updateFirst (fun t => t.id == sid) (fun _ => s') db.stores }

/-- A run of `n` sequential `_alloc_number` calls for one tenant and
kind, each committing before the next (the spec's "sequential
allocations within one tenant and kind"). -/
def dbAllocs (db : Db) (sid : Nat) (kind : String) :
    Nat → Except AllocErr (List String × Db)
  | 0 => .ok ([], db)
  | n + 1 =>
    match allocNumber db sid kind with
    | .error e => .error e
    | .ok (num, db') =>
      match dbAllocs db' sid kind n with
      | .error e => .error e
      | .ok (nums, db'') => .ok (num :: nums, db'')

/-- `deps.py` `require_feature` as a boolean: the flag row must exist
for (store, key) and have `enabled == 1`; a missing row is disabled. -/
def featureOk (db : Db) (sid : Nat) (key : String) : Bool :=
  match db.features.find? (fun f => f.store_id == sid && f.key == key) with
  | none => false
  | some f => f.enabled == 1

/-- Python `customer_name.strip() or None`. -/
def strOpt (s : String) : Option String :=
  if strTrim s = "" then none else some (strTrim s)

/-- Outcome of a route handler: a redirect/commit (`ok`), or one of the
early exits (each of which leaves the durable state untouched because
the session is closed without commit, or an exception rolls it back). -/
inductive HRes where
  | ok
  | forbidden
  | notFound
  | emptyRedirect
  | errProduct
  | errStock (name : String)
  | errTenant
deriving DecidableEq

/-- The fresh-Sale path of `routes.py` `convert_order_to_sale` (taken
when `order.converted_sale_id` is falsy, or when the referenced Sale is
missing): read the order's items, allocate a `"V"` number, insert the
Sale copying `customer_name` and `total` from the order with status
"concluida", copy every item verbatim, and set the order's
`converted_sale_id` to the new Sale id.  Stock is never touched. -/
def convertFresh (db : Db) (o : Order) : Except AllocErr (Sale × Db) :=
  let items := db.orderItems.filter (fun it => it.order_id == o.id)
  match allocNumber db o.store_id "V" with
  | .error e => .error e
  | .ok (num, db1) =>
    let sale : Sale :=
      { id := db1.nextSaleId, store_id := o.store_id,
        customer_name := o.customer_name, total := o.total,
        status := "concluida", number := some num }
    let db2 := { db1 with sales := db1.sales ++ [sale],
                          nextSaleId := db1.nextSaleId + 1 }
    let newItems := items.map (fun it =>
      SaleItem.mk sale.id it.product_name it.qty it.price it.line_total)
    let db3 := { db2 with saleItems := db2.saleItems ++ newItems }
    let newOrders := updateFirst (fun x => x.id == o.id)
      (fun x => { x with converted_sale_id := some sale.id }) db3.orders
    let db4 := { db3 with orders := newOrders }
    .ok (sale, db4)

/-- `routes.py` `convert_order_to_sale`: if `order.converted_sale_id`
is truthy (set and non-zero) and the referenced Sale exists in the
order's store, return it with the state unchanged; otherwise create a
fresh Sale. -/
def convertOrderToSale (db : Db) (o : Order) : Except AllocErr (Sale × Db) :=
  match o.converted_sale_id with
  | some cid =>
    if cid ≠ 0 then
      match db.sales.find? (fun s => s.id == cid && s.store_id == o.store_id) with
      | some sale => .ok (sale, db)
      | none => convertFresh db o
    else convertFresh db o
  | none => convertFresh db o

/-- `routes.py` `order_update_status`: gate on `segment_orders`, fetch
the order (redirect with no change when absent), store the
stripped/lowercased input status without any vocabulary validation, and
when it equals "entregue" run the conversion before committing.  A
conversion failure (missing store row in `_alloc_number`) raises, so
the whole transaction rolls back. -/
def orderUpdateStatus (db : Db) (sid : Nat) (oid : Nat) (status : String) :
    HRes × Db :=
  if featureOk db sid "segment_orders" = false then (.forbidden, db)
  else
    match db.orders.find? (fun o => o.id == oid && o.store_id == sid) with
    | none => (.notFound, db)
    | some o =>
      let st := strLower (strTrim status)
      let o' := { o with status := st }
      let newOrders := updateFirst (fun x => x.id == oid && x.store_id == sid)
        (fun x => { x with status := st }) db.orders
      let db1 := { db with orders := newOrders }
      if st = "entregue" then
        match convertOrderToSale db1 o' with
        | .error _ => (.errTenant, db)
        | .ok (_, db2) => (.ok, db2)
      else (.ok, db1)

/-- One captured line during the multi-line item loop shared by
`sale_new_action` and `order_new_action`: the immutable snapshot
`(product_name, qty, price, line_total)`. -/
structure LineSnap where
  name : String
  qty : Int
  price : Int
  line_total : Int
deriving DecidableEq

/-- The per-line loop of `routes.py` `sale_new_action` /
`order_new_action` over `zip(product_ids, qtys)` (the loop runs over
`range(min(len, len))`): blank or unparsable product ids and unknown
products are skipped; the quantity is clamped to at least 1; a line
whose quantity exceeds the product's current (session) stock aborts the
whole request with the product's name; an accepted line snapshots
`(name, qty, price, line_total)` and decrements the session stock. -/
def processLines (sid : Nat) (prods : List Product) :
    List (String × Int) → Except String (List Product × List LineSnap × Int)
  | [] => .ok (prods, [], 0)
  | (pidRaw, qty) :: rest =>
    let pr := strTrim pidRaw
    if pr = "" then processLines sid prods rest
    else
      match strToInt? pr with
      | none => processLines sid prods rest
      | some pid =>
        let q := max qty 1
        match prods.find? (fun p => p.id == pid && p.store_id == sid) with
        | none => processLines sid prods rest
        | some p =>
          if p.stock < q then .error p.name
          else
            let lt := p.price * q
            let prods' := updateFirst
              (fun x => x.id == pid && x.store_id == sid)
              (fun x => { x with stock := x.stock - q }) prods
            match processLines sid prods' rest with
            | .error e => .error e
            | .ok (prods'', snaps, total) =>
              .ok (prods'', LineSnap.mk p.name q p.price lt :: snaps, lt + total)

/-- `routes.py` `sale_new_action` up to its first early exit: feature
gate, empty-form redirect, the line loop, the Sale insert with a `"V"`
number, and the item inserts.  Errors mean the request ended before any
commit (or raised), so the durable state stays as it was. -/
def saleNewCore (db : Db) (sid : Nat) (customer : String)
    (pids : List String) (qtys : List Int) : Except HRes Db :=
  if featureOk db sid "core_sales" = false then .error .forbidden
  else if pids = [] then .error .emptyRedirect
  else
    match processLines sid db.products (pids.zip qtys) with
    | .error name => .error (.errStock name)
    | .ok (prods', snaps, total) =>
      match allocNumber { db with products := prods' } sid "V" with
      | .error _ => .error .errTenant
      | .ok (num, db1) =>
        let sale : Sale :=
          { id := db1.nextSaleId, store_id := sid,
            customer_name := strOpt customer, total := total,
            status := "concluida", number := some num }
        let db2 := { db1 with sales := db1.sales ++ [sale],
                              nextSaleId := db1.nextSaleId + 1 }
        .ok { db2 with saleItems := db2.saleItems ++ snaps.map (fun l =>
          SaleItem.mk sale.id l.name l.qty l.price l.line_total) }

/-- `routes.py` `sale_new_action` as durable-state transformer. -/
def saleNewAction (db : Db) (sid : Nat) (customer : String)
    (pids : List String) (qtys : List Int) : HRes × Db :=
  match saleNewCore db sid customer pids qtys with
  | .error e => (e, db)
  | .ok db' => (.ok, db')

/-- `routes.py` `order_new_action` up to its first early exit: feature
gate (`segment_orders`), the same line loop, the Order insert (the raw
`status` form value is stored unvalidated) with a `"P"` number, and the
item inserts. -/
def orderNewCore (db : Db) (sid : Nat) (customer : String) (status : String)
    (pids : List String) (qtys : List Int) : Except HRes Db :=
  if featureOk db sid "segment_orders" = false then .error .forbidden
  else
    match processLines sid db.products (pids.zip qtys) with
    | .error name => .error (.errStock name)
    | .ok (prods', snaps, total) =>
      match allocNumber { db with products := prods' } sid "P" with
      | .error _ => .error .errTenant
      | .ok (num, db1) =>
        let order : Order :=
          { id := db1.nextOrderId, store_id := sid,
            customer_name := strOpt customer, status := status,
            total := total, number := some num, converted_sale_id := none }
        let db2 := { db1 with orders := db1.orders ++ [order],
                              nextOrderId := db1.nextOrderId + 1 }
        .ok { db2 with orderItems := db2.orderItems ++ snaps.map (fun l =>
          OrderItem.mk order.id l.name l.qty l.price l.line_total) }

/-- `routes.py` `order_new_action` as durable-state transformer. -/
def orderNewAction (db : Db) (sid : Nat) (customer : String) (status : String)
    (pids : List String) (qtys : List Int) : HRes × Db :=
  match orderNewCore db sid customer status pids qtys with
  | .error e => (e, db)
  | .ok db' => (.ok, db')

/-- `routes.py` `tab_add_item`: gate on `segment_tables`, require an
open tab and an existing product, clamp the quantity to at least 1,
reject the request when stock is insufficient, otherwise insert the tab
item snapshot, decrement the product stock and add the line total to
the tab's running total, all committed together. -/
def tabAddItem (db : Db) (sid : Nat) (tid : Nat) (pid : Nat) (qty : Int) :
    HRes × Db :=
  if featureOk db sid "segment_tables" = false then (.forbidden, db)
  else
    match db.tabs.find? (fun t => t.id == tid && t.store_id == sid) with
    | none => (.notFound, db)
    | some t =>
      if t.status ≠ "aberta" then (.notFound, db)
      else
        match db.products.find? (fun p => p.id == pid && p.store_id == sid) with
        | none => (.errProduct, db)
        | some p =>
          let q := max qty 1
          if p.stock < q then (.errStock p.name, db)
          else
            let lt := p.price * q
            (.ok,
              { db with
                tabItems := db.tabItems ++ [BarTabItem.mk t.id p.name q p.price lt],
                products := updateFirst
                  (fun x => x.id == pid && x.store_id == sid)
                  (fun x => { x with stock := x.stock - q }) db.products,
                tabs := updateFirst
                  (fun x => x.id == tid && x.store_id == sid)
                  (fun x => { x with total := x.total + lt }) db.tabs })

/-- `routes.py` `tab_close`: gate on `segment_tables`, require an open
tab; when `t.converted_sale_id` is falsy, allocate a `"V"` number,
insert a Sale copying the tab's `table_name` as customer and the tab's
running `total`, copy every tab item verbatim into Sale items, and set
`converted_sale_id`; in all conversion outcomes mark the tab "fechada"
with `closed_at := now`.  Stock is never touched. -/
def tabClose (db : Db) (sid : Nat) (tid : Nat) (now : Int) : HRes × Db :=
  if featureOk db sid "segment_tables" = false then (.forbidden, db)
  else
    match db.tabs.find? (fun t => t.id == tid && t.store_id == sid) with
    | none => (.notFound, db)
    | some t =>
      if t.status ≠ "aberta" then (.notFound, db)
      else
        let notConv := match t.converted_sale_id with
          | none => true
          | some cid => cid == 0
        let closeTab := fun (d : Db) (conv : Option Nat) =>
          let newTabs := updateFirst
            (fun x => x.id == tid && x.store_id == sid)
            (fun x =>
              { x with
                converted_sale_id :=
                  (match conv with
                   | some cid => some cid
                   | none => x.converted_sale_id),
                status := "fechada", closed_at := some now }) d.tabs
          { d with tabs := newTabs }
        if notConv then
          match allocNumber db t.store_id "V" with
          | .error _ => (.errTenant, db)
          | .ok (num, db1) =>
            let items := db.tabItems.filter (fun it => it.tab_id == t.id)
            let sale : Sale :=
              { id := db1.nextSaleId, store_id := t.store_id,
                customer_name := some t.table_name, total := t.total,
                status := "concluida", number := some num }
            let db2 := { db1 with sales := db1.sales ++ [sale],
                                  nextSaleId := db1.nextSaleId + 1 }
            let db3 := { db2 with saleItems := db2.saleItems ++ items.map (fun it =>
              SaleItem.mk sale.id it.product_name it.qty it.price it.line_total) }
            (.ok, closeTab db3 (some sale.id))
        else (.ok, closeTab db none)

/-- `deps.py` `is_subscription_ok`: the subscription gate.  `now` is
the current UTC instant (`datetime.now(timezone.utc)`); `paid_until` is
normalised to a UTC instant by `toUtc` before any comparison, so the
comparison is total regardless of timezone awareness. -/
def isSubscriptionOk (now : Int) (store : Store) : Bool × String :=
  let pu := store.paid_until.map toUtc
  if store.subscription_status = "suspended" then
    (false, "Sua assinatura está suspensa.")
  else if store.subscription_status = "active" ∨ store.subscription_status = "trial" then
    match pu with
    | some t =>
      if t < now ∧ store.subscription_status ≠ "active" then
        (false, "Seu teste grátis terminou. Ative sua assinatura para continuar.")
      else if t < now ∧ store.subscription_status = "active" then
        (false, "Assinatura vencida. Renove para continuar.")
      else (true, "")
    | none => (true, "")
  else if store.subscription_status = "past_due" then
    (false, "Pagamento pendente. Regularize para continuar.")
  else (false, "Acesso bloqueado.")

/-- Outcome of the plan-assignment endpoints.  `nameErr s` models an
uncaught Python `NameError` for the undefined name `s`: the request
fails with HTTP 500 and the session is rolled back. -/
inductive PlanRes where
  | forbidden
  | storeRedirect
  | nameErr (s : String)
deriving DecidableEq

/-- `routes.py` `settings_plan`: after the admin-role check it
evaluates `is_master(request)`, but `request` is not a parameter of the
function and no module-level `request` exists, so every admin request
raises `NameError: name 'request' is not defined` before any mutation;
the plan/bundle code below that line is unreachable. -/
def settingsPlan (db : Db) (role : String)
    (_plan _subscriptionStatus _paidUntil : String) : PlanRes × Db :=
  if role ≠ "admin" then (.forbidden, db)
  else (.nameErr "request", db)

/-- `routes.py` `master_set_plan`: master-cookie check, store lookup,
then — after assigning plan/status/paid_until on the session — it calls
`ensure_default_features(db, store)`, a name defined nowhere in the
module and never imported, so the request raises `NameError` and the
session mutations roll back; the bundle loop below is unreachable and
the durable state is unchanged on every path. -/
def masterSetPlan (db : Db) (isMasterCookie : Bool) (storeId : Nat)
    (_plan _subscriptionStatus _paidUntil : String) : PlanRes × Db :=
  if isMasterCookie = false then (.forbidden, db)
  else
    match findStore db storeId with
    | none => (.storeRedirect, db)
    | some _ => (.nameErr "ensure_default_features", db)

end Imperio

namespace Loja

/-- `loja_mvp.py` `Product` row. -/
structure Product where
  id : Nat
  store_id : Nat
  name : String
  price : Int
  stock : Int
deriving DecidableEq

/-- `loja_mvp.py` `Sale` row (no `number` column in the MVP). -/
structure Sale where
  id : Nat
  store_id : Nat
  customer_name : Option String
  total : Int
  status : String
deriving DecidableEq

/-- `loja_mvp.py` `SaleItem` row. -/
structure SaleItem where
  sale_id : Nat
  product_name : String
  qty : Int
  price : Int
  line_total : Int
deriving DecidableEq

/-- `loja_mvp.py` `Order` row (no `number` / `converted_sale_id`
columns in the MVP). -/
structure Order where
  id : Nat
  store_id : Nat
  customer_name : Option String
  status : String
  total : Int
deriving DecidableEq

/-- `loja_mvp.py` `OrderItem` row. -/
structure OrderItem where
  order_id : Nat
  product_name : String
  qty : Int
  price : Int
  line_total : Int
deriving DecidableEq

/-- Durable database state of the MVP application. -/
structure Db where
  products : List Product
  sales : List Sale
  saleItems : List SaleItem
  orders : List Order
  orderItems : List OrderItem
  nextSaleId : Nat
deriving DecidableEq

/-- One accepted line of `loja_mvp.py` `sale_create` / `order_create`:
`(name, qty, price, line_total)`. -/
structure Line where
  name : String
  qty : Int
  price : Int
  line_total : Int
deriving DecidableEq

/-- The line-building loop of `loja_mvp.py` `sale_create` (lines
407-419): iterate `zip(item_name, item_qty, item_price)`, skip blank
names and non-positive quantities, record
`line_total = qty * price` and accumulate the total. -/
def collectLines : List (String × Int × Int) → List Line × Int
  | [] => ([], 0)
  | (n, q, pr) :: rest =>
    let nm := strTrim n
    if nm = "" then collectLines rest
    else if q ≤ 0 then collectLines rest
    else
      let lt := q * pr
      let r := collectLines rest
      (Line.mk nm q pr lt :: r.1, lt + r.2)

/-- Stock decrement used by `loja_mvp.py` when persisting a line
(`sale_create` line 430-432 and `order_set_status` line 513-515): look
the product up by store and case-insensitive name, and if found clamp
`p.stock = max(0, p.stock - qty)`.  No validation, no failure. -/
def decrementClamp (prods : List Product) (sid : Nat) (nm : String) (q : Int) :
    List Product :=
  updateFirst
    (fun p => p.store_id == sid && strLower p.name == strLower nm)
    (fun p => { p with stock := max 0 (p.stock - q) }) prods

/-- Persist one line into a sale: append the `SaleItem` snapshot and
apply the clamped stock decrement. -/
def persistLine (sid : Nat) (saleId : Nat) (d : Db) (l : Line) : Db :=
  { d with
    saleItems := d.saleItems ++ [SaleItem.mk saleId l.name l.qty l.price l.line_total],
    products := decrementClamp d.products sid l.name l.qty }

/-- `loja_mvp.py` `sale_create`: build the accepted lines, insert the
Sale (status "concluida") with the accumulated total, then persist each
line with the clamped stock decrement.  The handler has no failure
path: it never validates stock against the requested quantity. -/
def saleCreate (db : Db) (sid : Nat) (customer : String)
    (names : List String) (qtys : List Int) (prices : List Int) : Db :=
  let r := collectLines (names.zip (qtys.zip prices))
  let sale : Sale :=
    { id := db.nextSaleId, store_id := sid,
      customer_name := Imperio.strOpt customer, total := r.2,
      status := "concluida" }
  let db1 := { db with sales := db.sales ++ [sale],
                       nextSaleId := db.nextSaleId + 1 }
  r.1.foldl (persistLine sid sale.id) db1

/-- Outcome of `loja_mvp.py` `order_set_status`. -/
inductive LRes where
  | ok
  | notFound
  | invalidStatus
deriving DecidableEq

/-- Persist one order item into the generated sale during delivery:
append the copied `SaleItem` and apply the clamped stock decrement. -/
def deliverItem (sid : Nat) (saleId : Nat) (d : Db) (it : OrderItem) : Db :=
  { d with
    saleItems := d.saleItems ++
      [SaleItem.mk saleId it.product_name it.qty it.price it.line_total],
    products := decrementClamp d.products sid it.product_name it.qty }

/-- `loja_mvp.py` `order_set_status`: 404 when the order is missing,
HTTP 400 "Status inválido." (state unchanged) when the
stripped/lowercased status is outside
\x7bnovo, separando, saiu, entregue, cancelado\x7d, otherwise store the
status; a transition to "entregue" additionally creates a new Sale
copying the order's customer and total, copies every order item into
it and applies the clamped stock decrement per item — it does this on
every "entregue" transition, with no already-converted check. -/
def orderSetStatus (db : Db) (sid : Nat) (oid : Nat) (status : String) :
    LRes × Db :=
  match db.orders.find? (fun o => o.store_id == sid && o.id == oid) with
  | none => (.notFound, db)
  | some o =>
    let st := strLower (strTrim status)
    if st = "novo" ∨ st = "separando" ∨ st = "saiu" ∨
        st = "entregue" ∨ st = "cancelado" then
      let newOrders := updateFirst (fun x => x.store_id == sid && x.id == oid)
        (fun x => { x with status := st }) db.orders
      let db1 := { db with orders := newOrders }
      if st = "entregue" then
        let items := db1.orderItems.filter (fun it => it.order_id == o.id)
        let sale : Sale :=
          { id := db1.nextSaleId, store_id := sid,
            customer_name := o.customer_name, total := o.total,
            status := "concluida" }
        let db2 := { db1 with sales := db1.sales ++ [sale],
                              nextSaleId := db1.nextSaleId + 1 }
        (.ok, items.foldl (deliverItem sid sale.id) db2)
      else (.ok, db1)
    else (.invalidStatus, db)

end Loja

namespace Imperio

/-- A stock-consuming request in the SaaS application: order creation,
sale creation, or adding an item to a tab. -/
inductive StockOp where
  | saleNew (sid : Nat) (customer : String) (pids : List String) (qtys : List Int)
  | orderNew (sid : Nat) (customer status : String) (pids : List String) (qtys : List Int)
  | tabAdd (sid tid pid : Nat) (qty : Int)

/-- Durable effect of one stock-consuming request. -/
def applyStockOp (db : Db) : StockOp → Db
  | .saleNew sid c pids qtys => (saleNewAction db sid c pids qtys).2
  | .orderNew sid c st pids qtys => (orderNewAction db sid c st pids qtys).2
  | .tabAdd sid tid pid q => (tabAddItem db sid tid pid q).2

/-- Every product's stock is non-negative. -/
def stockNonneg (db : Db) : Prop := ∀ p ∈ db.products, 0 ≤ p.stock

instance (db : Db) : Decidable (stockNonneg db) := by
  unfold stockNonneg; infer_instance

end Imperio

namespace Loja

/-- A stock-consuming request in the MVP application: sale creation or
an order status transition (delivery decrements stock). -/
inductive StockOp where
  | saleCreate (sid : Nat) (customer : String)
      (names : List String) (qtys : List Int) (prices : List Int)
  | setStatus (sid oid : Nat) (status : String)

/-- Durable effect of one MVP request. -/
def applyStockOp (db : Db) : StockOp → Db
  | .saleCreate sid c ns qs prs => saleCreate db sid c ns qs prs
  | .setStatus sid oid st => (orderSetStatus db sid oid st).2

/-- Every product's stock is non-negative. -/
def stockNonneg (db : Db) : Prop := ∀ p ∈ db.products, 0 ≤ p.stock

instance (db : Db) : Decidable (stockNonneg db) := by
  unfold stockNonneg; infer_instance

end Loja

namespace Imperio

/-- A store as created by `admin_setup_action` and seeded by the
migrations: fresh counters at 1, in trial. -/
def exStore : Store :=
  { id := 1, name := "Loja A", segment := "deposito", plan := "basic",
    subscription_status := "trial", paid_until := none,
    next_order_seq := some 1, next_sale_seq := some 1, next_tab_seq := some 1 }

/-- An enabled feature row for store 1. -/
def exFeat (k : String) : FeatureRow := { store_id := 1, key := k, enabled := 1 }

/-- A small concrete SaaS state used to instantiate the claim theorems:
one store, one product ("Água", stock 10, price 2), one open order with
one line, one open tab with one line. -/
def exDb : Db :=
  { stores := [exStore],
    features := [exFeat "core_sales", exFeat "segment_orders",
                 exFeat "segment_tables"],
    products := [{ id := 1, store_id := 1, name := "Água", price := 2, stock := 10 }],
    sales := [],
    saleItems := [],
    orders := [{ id := 1, store_id := 1, customer_name := some "Ana",
                 status := "novo", total := 6, number := some "P-000001",
                 converted_sale_id := none }],
    orderItems := [{ order_id := 1, product_name := "Água", qty := 3,
                     price := 2, line_total := 6 }],
    tabs := [{ id := 1, store_id := 1, table_name := "Mesa 1",
               status := "aberta", total := 6, number := some "C-000001",
               converted_sale_id := none, closed_at := none }],
    tabItems := [{ tab_id := 1, product_name := "Água", qty := 3,
                   price := 2, line_total := 6 }],
    nextSaleId := 1, nextOrderId := 2, nextTabId := 2 }

/-- `exDb` with the order already converted to sale 7. -/
def exDbConv : Db :=
  { exDb with
    sales := [{ id := 7, store_id := 1, customer_name := some "Ana",
                total := 6, status := "concluida", number := some "V-000001" }],
    orders := [{ id := 1, store_id := 1, customer_name := some "Ana",
                 status := "entregue", total := 6, number := some "P-000001",
                 converted_sale_id := some 7 }],
    nextSaleId := 8 }

/-- An empty SaaS state (no stores at all). -/
def emptyDb : Db :=
  { stores := [], features := [], products := [], sales := [],
    saleItems := [], orders := [], orderItems := [], tabs := [],
    tabItems := [], nextSaleId := 1, nextOrderId := 1, nextTabId := 1 }

end Imperio

namespace Loja

/-- A small concrete MVP state: one product ("Água", stock 10,
price 2) and one open order with one line (qty 3). -/
def exDb : Db :=
  { products := [{ id := 1, store_id := 1, name := "Água", price := 2, stock := 10 }],
    sales := [],
    saleItems := [],
    orders := [{ id := 1, store_id := 1, customer_name := some "Ana",
                 status := "novo", total := 6 }],
    orderItems := [{ order_id := 1, product_name := "Água", qty := 3,
                     price := 2, line_total := 6 }],
    nextSaleId := 1 }

/-- An MVP state with a single low-stock product ("Água", stock 1). -/
def lowStockDb : Db :=
  { products := [{ id := 1, store_id := 1, name := "Água", price := 2, stock := 1 }],
    sales := [],
    saleItems := [],
    orders := [],
    orderItems := [],
    nextSaleId := 1 }

end Loja

/-! ## Shared lemmas about the session-update helpers -/

theorem find?_updateFirst {α : Type} (p : α → Bool) (f : α → α) (l : List α)
    (x : α) (h : l.find? p = some x) (hf : p (f x) = true) :
    (updateFirst p f l).find? p = some (f x) := by
  induction l with
  | nil => simp [List.find?] at h
  | cons a as ih =>
    by_cases hp : p a
    · rw [List.find?_cons_of_pos as hp] at h
      injection h with h
      subst h
      simp only [updateFirst, if_pos hp]
      exact List.find?_cons_of_pos as hf
    · simp only [updateFirst, if_neg hp]
      rw [List.find?_cons_of_neg as hp] at h
      rw [List.find?_cons_of_neg (updateFirst p f as) hp]
      exact ih h

theorem mem_updateFirst {α : Type} (p : α → Bool) (f : α → α) (l : List α)
    (y : α) (hy : y ∈ updateFirst p f l) :
    y ∈ l ∨ ∃ x, l.find? p = some x ∧ y = f x := by
  induction l with
  | nil => simp [updateFirst] at hy
  | cons a as ih =>
    by_cases hp : p a
    · simp only [updateFirst, if_pos hp] at hy
      rcases List.mem_cons.mp hy with hy | hy
      · exact Or.inr ⟨a, List.find?_cons_of_pos as hp, hy⟩
      · exact Or.inl (List.mem_cons_of_mem _ hy)
    · simp only [updateFirst, if_neg hp] at hy
      rcases List.mem_cons.mp hy with hy | hy
      · exact Or.inl (hy ▸ List.mem_cons_self a as)
      · rcases ih hy with h | ⟨x, hx, hyx⟩
        · exact Or.inl (List.mem_cons_of_mem _ h)
        · refine Or.inr ⟨x, ?_, hyx⟩
          rw [List.find?_cons_of_neg as hp]
          exact hx

namespace Imperio

theorem orOne_some {c : Nat} (hc : 1 ≤ c) : orOne (some c) = c := by
  have h : orOne (some c) = if c = 0 then 1 else c := rfl
  rw [h, if_neg (by omega)]

/-- `allocStep` on a positive stored counter: number from the current
value, counter bumped, store id unchanged. -/
theorem allocStep_spec (s : Store) (kind : String) (c : Nat)
    (hk : kind = "P" ∨ kind = "V" ∨ kind = "C")
    (hcs : counterOf s kind = some c) (hc : 1 ≤ c) :
    (allocStep s kind).1 = kind ++ "-" ++ pad6 c ∧
    (allocStep s kind).2.id = s.id ∧
    counterOf (allocStep s kind).2 kind = some (c + 1) := by
  rcases hk with hk | hk | hk <;> subst hk
  · have hcs' : s.next_order_seq = some c := by simpa [counterOf] using hcs
    simp [allocStep, counterOf, hcs', orOne_some hc]
  · have hcs' : s.next_sale_seq = some c := by simpa [counterOf] using hcs
    simp [allocStep, counterOf, hcs', orOne_some hc]
  · have hcs' : s.next_tab_seq = some c := by simpa [counterOf] using hcs
    simp [allocStep, counterOf, hcs', orOne_some hc]

/-- One `_alloc_number` call on a store whose counter holds `c ≥ 1`. -/
theorem allocNumber_ok (db : Db) (sid : Nat) (s : Store) (kind : String)
    (c : Nat) (hk : kind = "P" ∨ kind = "V" ∨ kind = "C")
    (hs : findStore db sid = some s) (hcs : counterOf s kind = some c)
    (hc : 1 ≤ c) :
    ∃ db' s', allocNumber db sid kind = .ok (kind ++ "-" ++ pad6 c, db') ∧
      findStore db' sid = some s' ∧ counterOf s' kind = some (c + 1) := by
  obtain ⟨h1, h2, h3⟩ := allocStep_spec s kind c hk hcs hc
  let L := updateFirst (fun t => t.id == sid) (fun _ => (allocStep s kind).2) db.stores
  refine ⟨{ db with stores := L }, (allocStep s kind).2, ?_, ?_, h3⟩
  · simp only [allocNumber, hs]
    rw [h1]
  · unfold findStore at hs ⊢
    have hps : ((allocStep s kind).2.id == sid) = true := by
      have hps0 := @List.find?_some Store (fun t => t.id == sid) s db.stores hs
      rw [h2]
      simpa using hps0
    simpa using find?_updateFirst (fun t => t.id == sid)
      (fun _ => (allocStep s kind).2) db.stores s hs hps

/-- Unfolding equation for `dbAllocs` at a successful first step. -/
theorem dbAllocs_succ (db : Db) (sid : Nat) (kind : String) (n : Nat)
    (num : String) (db1 : Db)
    (h : allocNumber db sid kind = .ok (num, db1)) :
    dbAllocs db sid kind (n + 1) =
      match dbAllocs db1 sid kind n with
      | .error e => .error e
      | .ok (nums, db'') => .ok (num :: nums, db'') := by
  have hd : dbAllocs db sid kind (n + 1) =
      match allocNumber db sid kind with
      | .error e => .error e
      | .ok (num, db') =>
        match dbAllocs db' sid kind n with
        | .error e => .error e
        | .ok (nums, db'') => .ok (num :: nums, db'') := rfl
  rw [hd, h]

/-- A run of `n` sequential allocations starting from counter `c ≥ 1`
returns the numbers `c, c+1, ..., c+n-1`, in order. -/
theorem dbAllocs_ok (kind : String)
    (hk : kind = "P" ∨ kind = "V" ∨ kind = "C") :
    ∀ (n : Nat) (db : Db) (sid : Nat) (s : Store) (c : Nat),
    findStore db sid = some s → counterOf s kind = some c → 1 ≤ c →
    ∃ db', dbAllocs db sid kind n =
      .ok ((List.range n).map (fun i => kind ++ "-" ++ pad6 (c + i)), db') := by
  intro n
  induction n with
  | zero => intro db sid s c _ _ _; exact ⟨db, by simp [dbAllocs]⟩
  | succ n ih =>
    intro db sid s c hs hcs hc
    obtain ⟨db1, s1, hstep, hs1, hcs1⟩ := allocNumber_ok db sid s kind c hk hs hcs hc
    obtain ⟨db2, hrun⟩ := ih db1 sid s1 (c + 1) hs1 hcs1 (by omega)
    refine ⟨db2, ?_⟩
    have hlist : (List.range (n + 1)).map (fun i => kind ++ "-" ++ pad6 (c + i)) =
        (kind ++ "-" ++ pad6 c) ::
          (List.range n).map (fun i => kind ++ "-" ++ pad6 (c + 1 + i)) := by
      rw [List.range_succ_eq_map, List.map_cons, List.map_map]
      congr 1
      refine List.map_congr_left ?_
      intro a _
      show kind ++ "-" ++ pad6 (c + Nat.succ a) = kind ++ "-" ++ pad6 (c + 1 + a)
      have hca : c + Nat.succ a = c + 1 + a := by omega
      rw [hca]
    rw [dbAllocs_succ db sid kind n _ db1 hstep, hrun, hlist]

/-- Claim C1: for every tenant and numbering kind among Order (`"P"`),
Sale (`"V"`) and Tab (`"C"`), `_alloc_number` returns
`"{prefix}-{seq:06d}"` built from the tenant's current counter value
and then increments that stored counter by 1; consequently a run of
`n` sequential allocations within one tenant and kind, starting from a
fresh tenant (counter stored as 1), returns the numeric parts
`1, 2, ..., n` — strictly increasing by 1, gapless, starting at 1,
with no repeats. -/
theorem C1_sequence_allocation :
    (∀ (db : Db) (sid : Nat) (s : Store) (kind : String) (c : Nat),
        (kind = "P" ∨ kind = "V" ∨ kind = "C") →
        findStore db sid = some s → counterOf s kind = some c → 1 ≤ c →
        ∃ db' s', allocNumber db sid kind = .ok (kind ++ "-" ++ pad6 c, db') ∧
          findStore db' sid = some s' ∧ counterOf s' kind = some (c + 1)) ∧
    (∀ (db : Db) (sid : Nat) (s : Store) (kind : String) (n : Nat),
        (kind = "P" ∨ kind = "V" ∨ kind = "C") →
        findStore db sid = some s → counterOf s kind = some 1 →
        ∃ db', dbAllocs db sid kind n =
          .ok ((List.range n).map (fun i => kind ++ "-" ++ pad6 (1 + i)), db')) := by
  constructor
  · intro db sid s kind c hk hs hcs hc
    exact allocNumber_ok db sid s kind c hk hs hcs hc
  · intro db sid s kind n hk hs hcs
    exact dbAllocs_ok kind hk n db sid s 1 hs hcs (by omega)

/-- Witness for C1 at a concrete fresh store: one allocation returns
`P-000001` and bumps the counter to 2; three sequential allocations
return `P-000001, P-000002, P-000003`. -/
theorem C1_sequence_allocation_witness :
    (∃ db' s', allocNumber exDb 1 "P" = .ok ("P" ++ "-" ++ pad6 1, db') ∧
      findStore db' 1 = some s' ∧ counterOf s' "P" = some 2) ∧
    (∃ db', dbAllocs exDb 1 "P" 3 =
      .ok ((List.range 3).map (fun i => "P" ++ "-" ++ pad6 (1 + i)), db')) := by
  constructor
  · exact C1_sequence_allocation.1 exDb 1 exStore "P" 1 (Or.inl rfl)
      (by decide) (by decide) (by decide)
  · exact C1_sequence_allocation.2 exDb 1 exStore "P" 3 (Or.inl rfl)
      (by decide) (by decide)

/-- Claim C9: when the tenant row does not exist, `_alloc_number`
raises HTTP 400 "Loja inválida." (the `InvalidTenant` failure): no
number is returned and nothing is allocated, for every kind. -/
theorem C9_alloc_invalid_tenant :
    ∀ (db : Db) (sid : Nat) (kind : String),
    findStore db sid = none →
    allocNumber db sid kind = .error .invalidTenant := by
  intro db sid kind h
  simp only [allocNumber, h]

/-- Witness for C9: allocation against a database with no stores fails
with the invalid-tenant error for all three kinds. -/
theorem C9_alloc_invalid_tenant_witness :
    allocNumber emptyDb 5 "P" = .error .invalidTenant ∧
    allocNumber emptyDb 5 "V" = .error .invalidTenant ∧
    allocNumber emptyDb 5 "C" = .error .invalidTenant :=
  ⟨C9_alloc_invalid_tenant emptyDb 5 "P" (by decide),
   C9_alloc_invalid_tenant emptyDb 5 "V" (by decide),
   C9_alloc_invalid_tenant emptyDb 5 "C" (by decide)⟩

end Imperio

namespace Imperio

/-- `_alloc_number` on an existing store row always succeeds, returning
the formatted number and the session with the bumped counter written
back; no other table is touched. -/
theorem allocNumber_isOk (db : Db) (sid : Nat) (st : Store) (kind : String)
    (hs : findStore db sid = some st) :
    allocNumber db sid kind =
      .ok ((allocStep st kind).1, bumpStore db sid (allocStep st kind).2) := by
  simp only [allocNumber, bumpStore, hs]

/-- The fresh-conversion path: the produced Sale copies the order's
customer and total, gets the next primary key and status "concluida";
the Sale items are the order's items copied verbatim; products are
untouched. -/
theorem convertFresh_spec (db : Db) (o : Order) (st : Store)
    (hs : findStore db o.store_id = some st) :
    ∃ sale db', convertFresh db o = .ok (sale, db') ∧
      sale.id = db.nextSaleId ∧
      sale.store_id = o.store_id ∧
      sale.total = o.total ∧
      sale.customer_name = o.customer_name ∧
      sale.status = "concluida" ∧
      db'.sales = db.sales ++ [sale] ∧
      db'.saleItems = db.saleItems ++
        (db.orderItems.filter (fun it => it.order_id == o.id)).map (fun it =>
          SaleItem.mk db.nextSaleId it.product_name it.qty it.price it.line_total) ∧
      db'.products = db.products ∧
      db'.nextSaleId = db.nextSaleId + 1 := by
  unfold convertFresh
  rw [allocNumber_isOk db o.store_id st "V" hs]
  exact ⟨_, _, rfl, rfl, rfl, rfl, rfl, rfl, rfl, rfl, rfl, rfl⟩

end Imperio

namespace Imperio

/-- Claim C2 (amended): in the SaaS application, conversion is
idempotent.  (i) When `converted_sale_id` is set (non-zero, Python
truthiness) and the referenced Sale exists in the order's store,
`convert_order_to_sale` returns that Sale and changes nothing.
(ii) Consequently a second "entregue" transition through
`order_update_status` on an already-converted order creates no Sale,
no Sale items, and touches no product stock.  (iii) Converting a fresh
order and then converting again (with the marker the first conversion
wrote) yields the same Sale both times, with no further state change.
The MVP application (`loja_mvp.py` `order_set_status`) violates the
claim — see the counterexample. -/
theorem C2_conversion_idempotent :
    (∀ (db : Db) (o : Order) (cid : Nat) (sale : Sale),
        o.converted_sale_id = some cid → cid ≠ 0 →
        db.sales.find? (fun s => s.id == cid && s.store_id == o.store_id) = some sale →
        convertOrderToSale db o = .ok (sale, db)) ∧
    (∀ (db : Db) (sid oid : Nat) (o : Order) (cid : Nat) (sale : Sale),
        featureOk db sid "segment_orders" = true →
        db.orders.find? (fun x => x.id == oid && x.store_id == sid) = some o →
        o.converted_sale_id = some cid → cid ≠ 0 →
        db.sales.find? (fun s => s.id == cid && s.store_id == o.store_id) = some sale →
        (orderUpdateStatus db sid oid "entregue").1 = .ok ∧
        (orderUpdateStatus db sid oid "entregue").2.sales = db.sales ∧
        (orderUpdateStatus db sid oid "entregue").2.saleItems = db.saleItems ∧
        (orderUpdateStatus db sid oid "entregue").2.products = db.products) ∧
    (∀ (db : Db) (o : Order) (st : Store),
        o.converted_sale_id = none →
        findStore db o.store_id = some st →
        (∀ s ∈ db.sales, s.id ≠ db.nextSaleId) →
        db.nextSaleId ≠ 0 →
        ∃ sale db1, convertOrderToSale db o = .ok (sale, db1) ∧
          ∀ o' : Order, o'.converted_sale_id = some sale.id →
            o'.store_id = o.store_id →
            convertOrderToSale db1 o' = .ok (sale, db1)) := by
  have pa : ∀ (db : Db) (o : Order) (cid : Nat) (sale : Sale),
      o.converted_sale_id = some cid → cid ≠ 0 →
      db.sales.find? (fun s => s.id == cid && s.store_id == o.store_id) = some sale →
      convertOrderToSale db o = .ok (sale, db) := by
    intro db o cid sale hcv hcid hfind
    simp only [convertOrderToSale, hcv]
    rw [if_pos hcid, hfind]
  refine ⟨pa, ?_, ?_⟩
  · intro db sid oid o cid sale hfeat hord hcv hcid hfind
    have hst : strLower (strTrim "entregue") = "entregue" := by decide
    have hb : convertOrderToSale { db with orders := updateFirst (fun x => x.id == oid && x.store_id == sid) (fun x => { x with status := "entregue" }) db.orders } { o with status := "entregue" } = .ok (sale, { db with orders := updateFirst (fun x => x.id == oid && x.store_id == sid) (fun x => { x with status := "entregue" }) db.orders }) := by
      apply pa
      · exact hcv
      · exact hcid
      · exact hfind
    simp only [orderUpdateStatus, hfeat, Bool.true_eq_false, if_false, hord, hst,
      hb, ite_self]
    exact ⟨trivial, trivial, trivial, trivial⟩
  · intro db o st hcv hs hfresh hpos
    obtain ⟨sale, db1, hconv, hid, hsid, htot, hcust, hstat, hsales, hitems, hprod,
      hnext⟩ := convertFresh_spec db o st hs
    have hmain : convertOrderToSale db o = .ok (sale, db1) := by
      simp only [convertOrderToSale, hcv]
      exact hconv
    refine ⟨sale, db1, hmain, ?_⟩
    intro o' hcv' hsid'
    have hfind : db1.sales.find? (fun s => s.id == sale.id && s.store_id == o'.store_id) = some sale := by
      rw [hsales, List.find?_append]
      have h1 : db.sales.find? (fun s => s.id == sale.id && s.store_id == o'.store_id) = none := by
        rw [List.find?_eq_none]
        intro x hx
        simp only [Bool.and_eq_true, beq_iff_eq, not_and]
        intro hxid _
        exact hfresh x hx (by rw [hxid, hid])
      have h2 : List.find? (fun s : Sale => s.id == sale.id && s.store_id == o'.store_id) [sale] = some sale := by
        simp [List.find?_cons, hsid, hsid']
      rw [h1, h2]
      rfl
    exact pa db1 o' sale.id sale hcv' (by rw [hid]; exact hpos) hfind

/-- Witness for C2 at concrete states: the already-converted order in
`exDbConv` converts to the stored Sale 7 with no change; a second
"entregue" transition changes no sales, sale items or products; a
fresh conversion in `exDb` followed by a reconversion yields the same
Sale. -/
theorem C2_conversion_idempotent_witness :
    (convertOrderToSale exDbConv { id := 1, store_id := 1, customer_name := some "Ana", status := "entregue", total := 6, number := some "P-000001", converted_sale_id := some 7 } = .ok ({ id := 7, store_id := 1, customer_name := some "Ana", total := 6, status := "concluida", number := some "V-000001" }, exDbConv)) ∧
    ((orderUpdateStatus exDbConv 1 1 "entregue").1 = .ok ∧
     (orderUpdateStatus exDbConv 1 1 "entregue").2.sales = exDbConv.sales ∧
     (orderUpdateStatus exDbConv 1 1 "entregue").2.saleItems = exDbConv.saleItems ∧
     (orderUpdateStatus exDbConv 1 1 "entregue").2.products = exDbConv.products) ∧
    (∃ sale db1, convertOrderToSale exDb { id := 1, store_id := 1, customer_name := some "Ana", status := "entregue", total := 6, number := some "P-000001", converted_sale_id := none } = .ok (sale, db1) ∧
      ∀ o' : Order, o'.converted_sale_id = some sale.id →
        o'.store_id = ({ id := 1, store_id := 1, customer_name := some "Ana", status := "entregue", total := 6, number := some "P-000001", converted_sale_id := none } : Order).store_id →
        convertOrderToSale db1 o' = .ok (sale, db1)) := by
  refine ⟨?_, ?_, ?_⟩
  · exact C2_conversion_idempotent.1 exDbConv _ 7 _ (by decide) (by decide) (by decide)
  · exact C2_conversion_idempotent.2.1 exDbConv 1 1
      { id := 1, store_id := 1, customer_name := some "Ana", status := "entregue", total := 6, number := some "P-000001", converted_sale_id := some 7 }
      7 { id := 7, store_id := 1, customer_name := some "Ana", total := 6, status := "concluida", number := some "V-000001" }
      (by decide) (by decide) (by decide) (by decide) (by decide)
  · exact C2_conversion_idempotent.2.2 exDb _ exStore (by decide) (by decide)
      (by decide) (by decide)

end Imperio

/-- Counterexample to claim C2 as stated: in `loja_mvp.py`, delivering
the same order twice (`order_set_status` with "entregue" both times)
creates a second Sale and decrements the product's stock a second time
(10 → 7 → 4), so converting the same Order twice does not yield the
same Sale and is not idempotent in that variant. -/
theorem C2_counterexample_double_delivery :
    (Loja.orderSetStatus Loja.exDb 1 1 "entregue").2.sales.length = 1 ∧
    (Loja.orderSetStatus (Loja.orderSetStatus Loja.exDb 1 1 "entregue").2 1 1 "entregue").2.sales.length = 2 ∧
    (Loja.orderSetStatus (Loja.orderSetStatus Loja.exDb 1 1 "entregue").2 1 1 "entregue").2.products =
      [{ id := 1, store_id := 1, name := "Água", price := 2, stock := 4 }] := by
  exact ⟨by decide, by decide, by decide⟩

namespace Imperio

/-- Claim C5: conversion copies the source document.  For an
unconverted Order, `convert_order_to_sale` produces a Sale whose
`total` is the order's total (copied, not recomputed), appends exactly
the order's line items copied verbatim (product_name, qty, price,
line_total — same count), and leaves every Product untouched.  For an
open unconverted Tab, `tab_close` does the same from the tab's running
total and items, with the tab's `table_name` as customer. -/
theorem C5_conversion_copies_source :
    (∀ (db : Db) (o : Order) (st : Store),
        o.converted_sale_id = none →
        findStore db o.store_id = some st →
        ∃ sale db', convertOrderToSale db o = .ok (sale, db') ∧
          sale.total = o.total ∧
          db'.sales = db.sales ++ [sale] ∧
          db'.saleItems = db.saleItems ++
            (db.orderItems.filter (fun it => it.order_id == o.id)).map (fun it =>
              SaleItem.mk sale.id it.product_name it.qty it.price it.line_total) ∧
          db'.products = db.products) ∧
    (∀ (db : Db) (sid tid : Nat) (t : BarTab) (st : Store) (now : Int),
        featureOk db sid "segment_tables" = true →
        db.tabs.find? (fun x => x.id == tid && x.store_id == sid) = some t →
        t.status = "aberta" → t.converted_sale_id = none →
        findStore db t.store_id = some st →
        ∃ sale db', tabClose db sid tid now = (.ok, db') ∧
          sale.total = t.total ∧
          sale.customer_name = some t.table_name ∧
          db'.sales = db.sales ++ [sale] ∧
          db'.saleItems = db.saleItems ++
            (db.tabItems.filter (fun it => it.tab_id == t.id)).map (fun it =>
              SaleItem.mk sale.id it.product_name it.qty it.price it.line_total) ∧
          db'.products = db.products) := by
  constructor
  · intro db o st hcv hs
    obtain ⟨sale, db', hconv, hid, hsid, htot, hcust, hstat, hsales, hitems, hprod,
      hnext⟩ := convertFresh_spec db o st hs
    have hmain : convertOrderToSale db o = .ok (sale, db') := by
      simp only [convertOrderToSale, hcv]
      exact hconv
    refine ⟨sale, db', hmain, htot, hsales, ?_, hprod⟩
    rw [hitems, hid]
  · intro db sid tid t st now hfeat htab hstat hcv hs
    simp only [tabClose, hfeat, Bool.true_eq_false, if_false, htab, hstat, hcv,
      allocNumber_isOk db t.store_id st "V" hs, ne_eq, not_true_eq_false,
      Bool.false_eq_true, reduceCtorEq]
    exact ⟨_, _, rfl, rfl, rfl, rfl, rfl, rfl⟩

/-- Witness for C5: converting the unconverted order of `exDb` and
closing the open tab of `exDb` both copy total and items verbatim and
leave products unchanged. -/
theorem C5_conversion_copies_source_witness :
    (∃ sale db', convertOrderToSale exDb { id := 1, store_id := 1, customer_name := some "Ana", status := "novo", total := 6, number := some "P-000001", converted_sale_id := none } = .ok (sale, db') ∧
      sale.total = ({ id := 1, store_id := 1, customer_name := some "Ana", status := "novo", total := 6, number := some "P-000001", converted_sale_id := none } : Order).total ∧
      db'.sales = exDb.sales ++ [sale] ∧
      db'.saleItems = exDb.saleItems ++
        (exDb.orderItems.filter (fun it => it.order_id == 1)).map (fun it =>
          SaleItem.mk sale.id it.product_name it.qty it.price it.line_total) ∧
      db'.products = exDb.products) ∧
    (∃ sale db', tabClose exDb 1 1 0 = (.ok, db') ∧
      sale.total = 6 ∧
      sale.customer_name = some "Mesa 1" ∧
      db'.sales = exDb.sales ++ [sale] ∧
      db'.saleItems = exDb.saleItems ++
        (exDb.tabItems.filter (fun it => it.tab_id == 1)).map (fun it =>
          SaleItem.mk sale.id it.product_name it.qty it.price it.line_total) ∧
      db'.products = exDb.products) := by
  constructor
  · exact C5_conversion_copies_source.1 exDb _ exStore (by decide) (by decide)
  · exact C5_conversion_copies_source.2 exDb 1 1
      { id := 1, store_id := 1, table_name := "Mesa 1", status := "aberta", total := 6, number := some "C-000001", converted_sale_id := none, closed_at := none }
      exStore 0 (by decide) (by decide) (by decide) (by decide) (by decide)

end Imperio

/-- Claim C6 (amended): `loja_mvp.py` `order_set_status` rejects any
input whose stripped/lowercased form is outside
\x7bnovo, separando, saiu, entregue, cancelado\x7d with HTTP 400
"Status inválido.", leaving the database (and so the order's stored
status) unchanged.  The SaaS variant (`routes.py`
`order_update_status`) performs no such validation and stores any
input — see the counterexample. -/
theorem C6_invalid_status_rejected :
    ∀ (db : Loja.Db) (sid oid : Nat) (status : String) (o : Loja.Order),
      db.orders.find? (fun x => x.store_id == sid && x.id == oid) = some o →
      strLower (strTrim status) ≠ "novo" →
      strLower (strTrim status) ≠ "separando" →
      strLower (strTrim status) ≠ "saiu" →
      strLower (strTrim status) ≠ "entregue" →
      strLower (strTrim status) ≠ "cancelado" →
      Loja.orderSetStatus db sid oid status = (.invalidStatus, db) := by
  intro db sid oid status o hord h1 h2 h3 h4 h5
  have hnc : ¬(strLower (strTrim status) = "novo" ∨
      strLower (strTrim status) = "separando" ∨
      strLower (strTrim status) = "saiu" ∨
      strLower (strTrim status) = "entregue" ∨
      strLower (strTrim status) = "cancelado") := by
    rintro (h | h | h | h | h)
    · exact h1 h
    · exact h2 h
    · exact h3 h
    · exact h4 h
    · exact h5 h
  simp only [Loja.orderSetStatus, hord]
  rw [if_neg hnc]

/-- Witness for C6: the MVP rejects the unrecognized status
"Rabanete " with no state change. -/
theorem C6_invalid_status_rejected_witness :
    Loja.orderSetStatus Loja.exDb 1 1 "Rabanete " = (.invalidStatus, Loja.exDb) :=
  C6_invalid_status_rejected Loja.exDb 1 1 "Rabanete "
    { id := 1, store_id := 1, customer_name := some "Ana", status := "novo", total := 6 }
    (by decide) (by decide) (by decide) (by decide) (by decide) (by decide)

/-- Counterexample to claim C6 as stated: the SaaS
`order_update_status` accepts the unrecognized status "Rabanete " —
the request succeeds (redirect, commit) and the order's stored status
becomes "rabanete" instead of being rejected unchanged. -/
theorem C6_counterexample_unvalidated_status :
    (Imperio.orderUpdateStatus Imperio.exDb 1 1 "Rabanete ").1 = .ok ∧
    (Imperio.orderUpdateStatus Imperio.exDb 1 1 "Rabanete ").2.orders =
      [{ id := 1, store_id := 1, customer_name := some "Ana", status := "rabanete", total := 6, number := some "P-000001", converted_sale_id := none }] := by
  exact ⟨by decide, by decide⟩

namespace Imperio

/-- Claim C7: over the recognized status vocabulary
\x7btrial, active, past_due, suspended\x7d, `is_subscription_ok` denies
access exactly when the status is "suspended", or "past_due", or the
status is "trial"/"active" with `paid_until` set and (normalised to a
UTC instant) in the past.  Moreover a timezone-naive `paid_until` is
coerced to the UTC-aware value with the same wall clock before the
comparison: the gate behaves identically on both, and the comparison
is total (the embedding is a total function), so it never raises. -/
theorem C7_subscription_gate :
    (∀ (now : Int) (store : Store),
        (store.subscription_status = "trial" ∨ store.subscription_status = "active" ∨
         store.subscription_status = "past_due" ∨ store.subscription_status = "suspended") →
        ((isSubscriptionOk now store).1 = false ↔
          (store.subscription_status = "suspended" ∨
           store.subscription_status = "past_due" ∨
           ((store.subscription_status = "trial" ∨ store.subscription_status = "active") ∧
            ∃ d, store.paid_until = some d ∧ toUtc d < now)))) ∧
    (∀ (now w : Int) (store : Store),
        isSubscriptionOk now { store with paid_until := some ⟨w, none⟩ } =
        isSubscriptionOk now { store with paid_until := some ⟨w, some 0⟩ }) := by
  constructor
  · intro now store hvoc
    rcases hvoc with h | h | h | h
    · rcases hpu : store.paid_until with _ | d
      · simp [isSubscriptionOk, h, hpu]
      · by_cases hlt : toUtc d < now
        · simp [isSubscriptionOk, h, hpu, hlt]
        · simp [isSubscriptionOk, h, hpu, hlt]
    · rcases hpu : store.paid_until with _ | d
      · simp [isSubscriptionOk, h, hpu]
      · by_cases hlt : toUtc d < now
        · simp [isSubscriptionOk, h, hpu, hlt]
        · simp [isSubscriptionOk, h, hpu, hlt]
    · simp [isSubscriptionOk, h]
    · simp [isSubscriptionOk, h]
  · intro now w store
    simp [isSubscriptionOk, toUtc]

/-- Witness for C7 at a concrete store: a trial store whose naive
`paid_until` lies in the past is denied, and the gate agrees on the
naive and UTC-aware representations of that timestamp. -/
theorem C7_subscription_gate_witness :
    ((isSubscriptionOk 100 { exStore with paid_until := some ⟨50, none⟩ }).1 = false ↔
      (({ exStore with paid_until := some ⟨50, none⟩ } : Store).subscription_status = "suspended" ∨
       ({ exStore with paid_until := some ⟨50, none⟩ } : Store).subscription_status = "past_due" ∨
       ((({ exStore with paid_until := some ⟨50, none⟩ } : Store).subscription_status = "trial" ∨
         ({ exStore with paid_until := some ⟨50, none⟩ } : Store).subscription_status = "active") ∧
        ∃ d, ({ exStore with paid_until := some ⟨50, none⟩ } : Store).paid_until = some d ∧ toUtc d < 100))) ∧
    (isSubscriptionOk 100 { exStore with paid_until := some ⟨50, none⟩ } =
     isSubscriptionOk 100 { exStore with paid_until := some ⟨50, some 0⟩ }) :=
  ⟨C7_subscription_gate.1 100 { exStore with paid_until := some ⟨50, none⟩ } (Or.inl (by decide)),
   C7_subscription_gate.2 100 50 exStore⟩

/-- Claim C10: gate edge cases.  A "trial" or "active" store with no
`paid_until` at all is allowed through (no expiry date means
unrestricted access); any subscription status outside
\x7btrial, active, past_due, suspended\x7d is denied (fail closed:
"Acesso bloqueado."). -/
theorem C10_gate_edge_cases :
    (∀ (now : Int) (store : Store),
        (store.subscription_status = "trial" ∨ store.subscription_status = "active") →
        store.paid_until = none →
        (isSubscriptionOk now store).1 = true) ∧
    (∀ (now : Int) (store : Store),
        store.subscription_status ≠ "trial" →
        store.subscription_status ≠ "active" →
        store.subscription_status ≠ "past_due" →
        store.subscription_status ≠ "suspended" →
        (isSubscriptionOk now store).1 = false) := by
  constructor
  · intro now store h hpu
    rcases h with h | h
    · simp [isSubscriptionOk, h, hpu]
    · simp [isSubscriptionOk, h, hpu]
  · intro now store h1 h2 h3 h4
    simp only [isSubscriptionOk]
    rw [if_neg h4]
    rw [if_neg ?hor]
    case hor =>
      rintro (h | h)
      · exact h2 h
      · exact h1 h
    rw [if_neg h3]

/-- Witness for C10: the fresh trial store of `exDb` (no `paid_until`)
is allowed; a store with the unknown status "weird" is denied. -/
theorem C10_gate_edge_cases_witness :
    (isSubscriptionOk 100 exStore).1 = true ∧
    (isSubscriptionOk 100 { exStore with subscription_status := "weird" }).1 = false :=
  ⟨C10_gate_edge_cases.1 100 exStore (Or.inl (by decide)) (by decide),
   C10_gate_edge_cases.2 100 { exStore with subscription_status := "weird" }
     (by decide) (by decide) (by decide) (by decide)⟩

end Imperio

namespace Imperio

/-- Claim C8 (code-bug evaluation): neither plan-assignment endpoint
can ever apply a plan bundle.  `settings_plan` evaluates
`is_master(request)` where `request` is not in scope, so every admin
request dies with `NameError` before any mutation; `master_set_plan`
calls the undefined `ensure_default_features`, so its session
mutations roll back and the durable state — including every feature
flag — is unchanged on every path.  In particular assigning plan
"elite" to the concrete store leaves its flags exactly as they were
instead of enabling the five premium flags. -/
theorem C8_plan_bundle_unreachable :
    (∀ (db : Db) (plan st pu : String),
        settingsPlan db "admin" plan st pu = (.nameErr "request", db)) ∧
    (∀ (db : Db) (m : Bool) (sid : Nat) (plan st pu : String),
        (masterSetPlan db m sid plan st pu).2 = db) ∧
    (masterSetPlan exDb true 1 "elite" "active" "" =
      (.nameErr "ensure_default_features", exDb)) ∧
    ((masterSetPlan exDb true 1 "elite" "active" "").2.features = exDb.features) := by
  refine ⟨?_, ?_, by decide, by decide⟩
  · intro db plan st pu
    simp [settingsPlan]
  · intro db m sid plan st pu
    unfold masterSetPlan
    by_cases hm : m = false
    · rw [if_pos hm]
    · rw [if_neg hm]
      cases hfs : findStore db sid <;> simp [hfs]

/-- Claim C3: the multi-line submissions are all-or-nothing.  If the
line loop of `sale_new_action` / `order_new_action` aborts with an
insufficient-stock error on any line (including one after lines whose
session stock was already decremented), the handler returns the error
redirect before any commit, so the durable state is exactly the input
state: no stock change, no Sale/Order document, no line items. -/
theorem C3_all_or_nothing :
    (∀ (db : Db) (sid : Nat) (customer : String) (pids : List String)
        (qtys : List Int) (name : String),
        featureOk db sid "core_sales" = true → pids ≠ [] →
        processLines sid db.products (pids.zip qtys) = .error name →
        saleNewAction db sid customer pids qtys = (.errStock name, db)) ∧
    (∀ (db : Db) (sid : Nat) (customer status : String) (pids : List String)
        (qtys : List Int) (name : String),
        featureOk db sid "segment_orders" = true →
        processLines sid db.products (pids.zip qtys) = .error name →
        orderNewAction db sid customer status pids qtys = (.errStock name, db)) := by
  constructor
  · intro db sid customer pids qtys name hfeat hne hproc
    simp [saleNewAction, saleNewCore, hfeat, hne, hproc]
  · intro db sid customer status pids qtys name hfeat hproc
    simp [orderNewAction, orderNewCore, hfeat, hproc]

/-- Witness for C3: a one-line sale over stock and a two-line order
whose second line exceeds the stock remaining after the first line
both leave `exDb` exactly unchanged. -/
theorem C3_all_or_nothing_witness :
    saleNewAction exDb 1 "Bob" ["1"] [20] = (.errStock "Água", exDb) ∧
    orderNewAction exDb 1 "Bea" "novo" ["1", "1"] [6, 6] = (.errStock "Água", exDb) :=
  ⟨C3_all_or_nothing.1 exDb 1 "Bob" ["1"] [20] "Água" (by decide) (by decide)
     (by decide),
   C3_all_or_nothing.2 exDb 1 "Bea" "novo" ["1", "1"] [6, 6] "Água" (by decide)
     (by decide)⟩

end Imperio

namespace Imperio

/-- The line loop preserves non-negative stock: it only decrements the
fetched product after checking `stock ≥ q`. -/
theorem processLines_nonneg (sid : Nat) :
    ∀ (lines : List (String × Int)) (prods prods' : List Product)
      (snaps : List LineSnap) (total : Int),
      (∀ p ∈ prods, 0 ≤ p.stock) →
      processLines sid prods lines = .ok (prods', snaps, total) →
      ∀ p ∈ prods', 0 ≤ p.stock := by
  intro lines
  induction lines with
  | nil =>
    intro prods prods' snaps total hnn h
    simp only [processLines, Except.ok.injEq, Prod.mk.injEq] at h
    obtain ⟨h1, _, _⟩ := h
    exact h1 ▸ hnn
  | cons hd rest ih =>
    intro prods prods' snaps total hnn h
    obtain ⟨pidRaw, qty⟩ := hd
    simp only [processLines] at h
    by_cases hblank : strTrim pidRaw = ""
    · rw [if_pos hblank] at h
      exact ih prods prods' snaps total hnn h
    · rw [if_neg hblank] at h
      cases hint : strToInt? (strTrim pidRaw) with
      | none =>
        simp only [hint] at h
        exact ih prods prods' snaps total hnn h
      | some pid =>
        simp only [hint] at h
        cases hfind : prods.find? (fun p => p.id == pid && p.store_id == sid) with
        | none =>
          simp only [hfind] at h
          exact ih prods prods' snaps total hnn h
        | some p =>
          simp only [hfind] at h
          by_cases hstk : p.stock < max qty 1
          · rw [if_pos hstk] at h
            exact absurd h (by simp)
          · rw [if_neg hstk] at h
            cases hrec : processLines sid (updateFirst
                (fun x => x.id == pid && x.store_id == sid)
                (fun x => { x with stock := x.stock - max qty 1 }) prods) rest with
            | error e =>
              rw [hrec] at h
              exact absurd h (by simp)
            | ok r =>
              obtain ⟨prods2, snaps2, total2⟩ := r
              rw [hrec] at h
              simp only [Except.ok.injEq, Prod.mk.injEq] at h
              obtain ⟨h1, _, _⟩ := h
              have hnn2 : ∀ q ∈ updateFirst (fun x => x.id == pid && x.store_id == sid) (fun x => { x with stock := x.stock - max qty 1 }) prods, 0 ≤ q.stock := by
                intro q hq
                rcases mem_updateFirst _ _ _ _ hq with hq | ⟨x, hx, hqe⟩
                · exact hnn q hq
                · rw [hfind] at hx
                  injection hx with hx
                  subst hx
                  subst hqe
                  simp only
                  omega
              exact h1 ▸ ih _ prods2 snaps2 total2 hnn2 hrec

/-- `_alloc_number` writes only to the store row: products preserved. -/
theorem allocNumber_products (db db' : Db) (sid : Nat) (kind num : String)
    (h : allocNumber db sid kind = .ok (num, db')) :
    db'.products = db.products := by
  unfold allocNumber at h
  cases hfs : findStore db sid with
  | none =>
    rw [hfs] at h
    exact absurd h (by simp)
  | some s =>
    rw [hfs] at h
    simp only [Except.ok.injEq, Prod.mk.injEq] at h
    obtain ⟨_, h2⟩ := h
    rw [← h2]

/-- `sale_new_action` preserves non-negative stock. -/
theorem saleNewAction_nonneg (db : Db) (sid : Nat) (customer : String)
    (pids : List String) (qtys : List Int) (hnn : stockNonneg db) :
    stockNonneg (saleNewAction db sid customer pids qtys).2 := by
  unfold saleNewAction
  cases hcore : saleNewCore db sid customer pids qtys with
  | error e => exact hnn
  | ok db' =>
    simp only
    simp only [saleNewCore] at hcore
    split at hcore
    · exact absurd hcore (by simp)
    · split at hcore
      · exact absurd hcore (by simp)
      · cases hproc : processLines sid db.products (pids.zip qtys) with
        | error name =>
          simp only [hproc] at hcore
          exact absurd hcore (by simp)
        | ok r =>
          obtain ⟨prods', snaps, total⟩ := r
          simp only [hproc] at hcore
          cases halloc : allocNumber { db with products := prods' } sid "V" with
          | error e =>
            simp only [halloc] at hcore
            exact absurd hcore (by simp)
          | ok r2 =>
            obtain ⟨num, db1⟩ := r2
            simp only [halloc] at hcore
            simp only [Except.ok.injEq] at hcore
            subst hcore
            intro p hp
            have hp' : p ∈ db1.products := hp
            rw [allocNumber_products _ _ _ _ _ halloc] at hp'
            exact processLines_nonneg sid (pids.zip qtys) db.products prods'
              snaps total hnn hproc p hp'

/-- `order_new_action` preserves non-negative stock. -/
theorem orderNewAction_nonneg (db : Db) (sid : Nat) (customer status : String)
    (pids : List String) (qtys : List Int) (hnn : stockNonneg db) :
    stockNonneg (orderNewAction db sid customer status pids qtys).2 := by
  unfold orderNewAction
  cases hcore : orderNewCore db sid customer status pids qtys with
  | error e => exact hnn
  | ok db' =>
    simp only
    simp only [orderNewCore] at hcore
    split at hcore
    · exact absurd hcore (by simp)
    · cases hproc : processLines sid db.products (pids.zip qtys) with
      | error name =>
        simp only [hproc] at hcore
        exact absurd hcore (by simp)
      | ok r =>
        obtain ⟨prods', snaps, total⟩ := r
        simp only [hproc] at hcore
        cases halloc : allocNumber { db with products := prods' } sid "P" with
        | error e =>
          simp only [halloc] at hcore
          exact absurd hcore (by simp)
        | ok r2 =>
          obtain ⟨num, db1⟩ := r2
          simp only [halloc] at hcore
          simp only [Except.ok.injEq] at hcore
          subst hcore
          intro p hp
          have hp' : p ∈ db1.products := hp
          rw [allocNumber_products _ _ _ _ _ halloc] at hp'
          exact processLines_nonneg sid (pids.zip qtys) db.products prods'
            snaps total hnn hproc p hp'

/-- `tab_add_item` preserves non-negative stock. -/
theorem tabAddItem_nonneg (db : Db) (sid tid pid : Nat) (qty : Int)
    (hnn : stockNonneg db) : stockNonneg (tabAddItem db sid tid pid qty).2 := by
  unfold tabAddItem
  split
  · exact hnn
  · cases htab : db.tabs.find? (fun t => t.id == tid && t.store_id == sid) with
    | none => exact hnn
    | some t =>
      simp only
      split
      · exact hnn
      · cases hfind : db.products.find? (fun p => p.id == pid && p.store_id == sid) with
        | none => exact hnn
        | some p =>
          simp only
          split
          · exact hnn
          · rename_i hstk
            intro q hq
            rcases mem_updateFirst _ _ _ _ hq with hq | ⟨x, hx, hqe⟩
            · exact hnn q hq
            · rw [hfind] at hx
              injection hx with hx
              subst hx
              subst hqe
              simp only
              omega

end Imperio

namespace Loja

/-- The clamped decrement `max(0, stock - qty)` keeps stock
non-negative. -/
theorem decrementClamp_nonneg (prods : List Product) (sid : Nat) (nm : String)
    (q : Int) (hnn : ∀ p ∈ prods, 0 ≤ p.stock) :
    ∀ p ∈ decrementClamp prods sid nm q, 0 ≤ p.stock := by
  intro p hp
  simp only [decrementClamp] at hp
  rcases mem_updateFirst _ _ _ _ hp with hp | ⟨x, hx, hpe⟩
  · exact hnn p hp
  · subst hpe
    exact le_max_left 0 _

/-- Persisting sale lines preserves non-negative stock. -/
theorem persistFold_nonneg (sid saleId : Nat) :
    ∀ (ls : List Line) (d : Db), (∀ p ∈ d.products, 0 ≤ p.stock) →
      ∀ p ∈ (ls.foldl (persistLine sid saleId) d).products, 0 ≤ p.stock := by
  intro ls
  induction ls with
  | nil => intro d hnn; simpa using hnn
  | cons l rest ih =>
    intro d hnn
    simp only [List.foldl_cons]
    refine ih _ ?_
    intro p hp
    exact decrementClamp_nonneg _ _ _ _ hnn p hp

/-- Copying delivered order items preserves non-negative stock. -/
theorem deliverFold_nonneg (sid saleId : Nat) :
    ∀ (its : List OrderItem) (d : Db), (∀ p ∈ d.products, 0 ≤ p.stock) →
      ∀ p ∈ (its.foldl (deliverItem sid saleId) d).products, 0 ≤ p.stock := by
  intro its
  induction its with
  | nil => intro d hnn; simpa using hnn
  | cons it rest ih =>
    intro d hnn
    simp only [List.foldl_cons]
    refine ih _ ?_
    intro p hp
    exact decrementClamp_nonneg _ _ _ _ hnn p hp

/-- `loja_mvp.py` `sale_create` preserves non-negative stock (by
clamping, not by validation). -/
theorem saleCreate_nonneg (db : Db) (sid : Nat) (customer : String)
    (names : List String) (qtys : List Int) (prices : List Int)
    (hnn : stockNonneg db) :
    stockNonneg (saleCreate db sid customer names qtys prices) := by
  intro p hp
  simp only [saleCreate] at hp
  exact persistFold_nonneg sid db.nextSaleId _ _ (by exact hnn) p hp

/-- `loja_mvp.py` `order_set_status` preserves non-negative stock. -/
theorem orderSetStatus_nonneg (db : Db) (sid oid : Nat) (status : String)
    (hnn : stockNonneg db) :
    stockNonneg (orderSetStatus db sid oid status).2 := by
  unfold orderSetStatus
  cases hord : db.orders.find? (fun o => o.store_id == sid && o.id == oid) with
  | none => exact hnn
  | some o =>
    simp only
    split
    · split
      · intro p hp
        exact deliverFold_nonneg sid _ _ _ (by exact hnn) p hp
      · exact hnn
    · exact hnn

end Loja

namespace Imperio

/-- Claim C4 (amended): stock never goes negative.  All stock-consuming
SaaS operations (sale creation, order creation, adding a tab item)
preserve `stock ≥ 0` over any sequence, as do the MVP operations
(`sale_create`, delivery via `order_set_status`); the SaaS `tab_add_item`
additionally validates `stock ≥ qty` and fails the request, state
unchanged, when it does not hold.  The claim's universal
validate-and-fail mechanism does not hold for the cited MVP
`sale_create`, which clamps at 0 without validating — see the
counterexample. -/
theorem C4_stock_never_negative :
    (∀ (db : Db) (ops : List StockOp),
        stockNonneg db → stockNonneg (ops.foldl applyStockOp db)) ∧
    (∀ (db : Loja.Db) (ops : List Loja.StockOp),
        Loja.stockNonneg db →
        Loja.stockNonneg (ops.foldl Loja.applyStockOp db)) ∧
    (∀ (db : Db) (sid tid pid : Nat) (qty : Int) (t : BarTab) (p : Product),
        featureOk db sid "segment_tables" = true →
        db.tabs.find? (fun x => x.id == tid && x.store_id == sid) = some t →
        t.status = "aberta" →
        db.products.find? (fun x => x.id == pid && x.store_id == sid) = some p →
        p.stock < max qty 1 →
        tabAddItem db sid tid pid qty = (.errStock p.name, db)) := by
  refine ⟨?_, ?_, ?_⟩
  · intro db ops
    induction ops generalizing db with
    | nil => exact fun h => h
    | cons op rest ih =>
      intro hnn
      simp only [List.foldl_cons]
      apply ih
      cases op with
      | saleNew sid c pids qtys => exact saleNewAction_nonneg db sid c pids qtys hnn
      | orderNew sid c st pids qtys =>
        exact orderNewAction_nonneg db sid c st pids qtys hnn
      | tabAdd sid tid pid q => exact tabAddItem_nonneg db sid tid pid q hnn
  · intro db ops
    induction ops generalizing db with
    | nil => exact fun h => h
    | cons op rest ih =>
      intro hnn
      simp only [List.foldl_cons]
      apply ih
      cases op with
      | saleCreate sid c ns qs prs =>
        exact Loja.saleCreate_nonneg db sid c ns qs prs hnn
      | setStatus sid oid st => exact Loja.orderSetStatus_nonneg db sid oid st hnn
  · intro db sid tid pid qty t p hfeat htab hstat hfindp hstk
    simp only [tabAddItem, hfeat, Bool.true_eq_false, if_false, htab, hstat,
      hfindp, ne_eq, not_true_eq_false, Bool.false_eq_true, reduceCtorEq,
      if_pos hstk]

/-- Witness for C4: a concrete sequence of SaaS operations and of MVP
operations starting from non-negative stock ends with non-negative
stock; a concrete over-stock `tab_add_item` fails without change. -/
theorem C4_stock_never_negative_witness :
    stockNonneg ([StockOp.saleNew 1 "A" ["1"] [2],
      StockOp.orderNew 1 "B" "novo" ["1"] [3],
      StockOp.tabAdd 1 1 1 100].foldl applyStockOp exDb) ∧
    Loja.stockNonneg ([Loja.StockOp.saleCreate 1 "X" ["Água"] [5] [2],
      Loja.StockOp.setStatus 1 1 "entregue"].foldl Loja.applyStockOp Loja.exDb) ∧
    tabAddItem exDb 1 1 1 100 = (.errStock "Água", exDb) := by
  refine ⟨?_, ?_, ?_⟩
  · exact C4_stock_never_negative.1 exDb _ (by decide)
  · exact C4_stock_never_negative.2.1 Loja.exDb _ (by decide)
  · exact C4_stock_never_negative.2.2 exDb 1 1 1 100
      { id := 1, store_id := 1, table_name := "Mesa 1", status := "aberta", total := 6, number := some "C-000001", converted_sale_id := none, closed_at := none }
      { id := 1, store_id := 1, name := "Água", price := 2, stock := 10 }
      (by decide) (by decide) (by decide) (by decide) (by decide)

end Imperio

/-- Counterexample to claim C4 as stated: `loja_mvp.py` `sale_create`
does not validate `stock ≥ qty` and does not fail — a sale of qty 5
against stock 1 succeeds (the Sale row is created with total 10) and
the stock is clamped to 0 by `max(0, stock - qty)`. -/
theorem C4_counterexample_clamp_without_validation :
    (Loja.saleCreate Loja.lowStockDb 1 "X" ["Água"] [5] [2]).sales =
      [{ id := 1, store_id := 1, customer_name := some "X", total := 10, status := "concluida" }] ∧
    (Loja.saleCreate Loja.lowStockDb 1 "X" ["Água"] [5] [2]).products =
      [{ id := 1, store_id := 1, name := "Água", price := 2, stock := 0 }] := by
  exact ⟨by decide, by decide⟩
